import Mathlib

/-!
# Verification of the TDS-3034 data-acquisition script (`src/DataAcq.py`)

Shallow embedding of the script's protocol engine and waveform decode
pipeline.  Python floats are modelled as exact rationals; Python's
`round(x, 15)` and `numpy.round(x, 15)` are modelled as exact decimal
rounding to 15 digits with ties to even (the rounding rule both document).
The Batteries rational operations are `@[irreducible]`; we restore their
reducibility so that concrete runs of the pipeline can be evaluated by
`decide`.
-/

attribute [local semireducible] Rat.add Rat.mul Rat.sub Rat.inv Rat.ofScientific

/-- Round a rational to the nearest integer, ties to even — the rounding rule
of Python's builtin `round` and of `numpy.round`. -/
def pyRoundInt (q : ℚ) : ℤ :=
  let f : ℤ := ⌊q⌋
  let r : ℚ := q - f
  if r < 1 / 2 then f
  else if 1 / 2 < r then f + 1
  else if f % 2 = 0 then f else f + 1

/-- `round(x, 15)` of the script (lines 133 and 145): round to 15 decimal
digits, ties to even. -/
def round15 (q : ℚ) : ℚ := (pyRoundInt (q * 10 ^ 15) : ℚ) / 10 ^ 15

example : round15 ((16 : ℚ) / 10 ^ 16) = 2 / 10 ^ 15 := by decide
example : round15 ((12 : ℚ) / 10 ^ 16) = 1 / 10 ^ 15 := by decide
example : round15 (4 - (512 : ℚ) * (1 / 25)) = -(412 / 25) := by decide

/-! ## Numeric token parsing

Model of Python's `float(token)` on the decimal/scientific literals the
instrument produces: optional sign, decimal mantissa, optional exponent. -/

/-- Split a character list on a separator character, with the semantics of
Python's `str.split(sep)`: `n` separators produce `n + 1` (possibly empty)
fields; the empty string yields one empty field. -/
def splitOnChar (sep : Char) : List Char → List (List Char)
  | [] => [[]]
  | c :: t =>
    match splitOnChar sep t, decide (c = sep) with
    | r, true => [] :: r
    | [], false => [[c]]
    | h :: t2, false => (c :: h) :: t2

example : splitOnChar ';' "a;;bc".toList = ["a".toList, [], "bc".toList] := by decide
example : splitOnChar ',' "".toList = [[]] := by decide

/-- Value of a list of decimal digit characters. -/
def digitsVal (cs : List Char) : ℕ :=
  cs.foldl (fun a c => a * 10 + (c.toNat - 48)) 0

/-- Parse an unsigned decimal mantissa `ddd`, `ddd.ddd`, `.ddd` or `ddd.`
into `(numerator, number of fractional digits)`. -/
def parseMant (cs : List Char) : Option (ℕ × ℕ) :=
  match cs.splitOn '.' with
  | [i] =>
    if i.isEmpty then none
    else if i.all Char.isDigit then some (digitsVal i, 0) else none
  | [i, f] =>
    if i.isEmpty && f.isEmpty then none
    else if i.all Char.isDigit && f.all Char.isDigit then
      some (digitsVal i * 10 ^ f.length + digitsVal f, f.length)
    else none
  | _ => none

/-- Parse a (possibly signed) decimal exponent. -/
def parseExp (cs : List Char) : Option ℤ :=
  match cs with
  | '+' :: t =>
    if t.isEmpty then none
    else if t.all Char.isDigit then some (digitsVal t) else none
  | '-' :: t =>
    if t.isEmpty then none
    else if t.all Char.isDigit then some (-(digitsVal t : ℤ)) else none
  | t =>
    if t.isEmpty then none
    else if t.all Char.isDigit then some (digitsVal t) else none

/-- Model of Python's `float(...)` applied to the ASCII numeric tokens of the
instrument: sign, decimal mantissa, optional scientific exponent, read as an
exact rational. -/
def parseFloatChars (s : List Char) : Option ℚ :=
  let cs := s.map Char.toLower
  let signAndRest : Bool × List Char :=
    match cs with
    | '-' :: t => (true, t)
    | '+' :: t => (false, t)
    | t => (false, t)
  let body := match signAndRest.2.splitOn 'e' with
    | [m] => (parseMant m).map (fun (nk : ℕ × ℕ) => (nk.1 : ℚ) / 10 ^ nk.2)
    | [m, e] =>
      (parseMant m).bind (fun (nk : ℕ × ℕ) =>
        (parseExp e).map (fun ex => (nk.1 : ℚ) / 10 ^ nk.2 * (10 : ℚ) ^ ex))
    | _ => none
  body.map (fun q => if signAndRest.1 then -q else q)

/-- `float(token)` on a string token. -/
def parseFloat (s : String) : Option ℚ := parseFloatChars s.toList

example : parseFloat "100" = some 100 := by decide
example : parseFloat "0.04" = some (1 / 25) := by decide
example : parseFloat "1e-6" = some (1 / 1000000) := by decide
example : parseFloat "-2.5E1" = some (-25) := by decide
example : parseFloat "" = none := by decide
example : parseFloat "x1" = none := by decide

/-! ## Preamble parsing (lines 119–128) -/

/-- The typed per-channel preamble fields the script extracts from the
semicolon-split `WFMPre?` response (`ch_conf[6,8,10,11,12,13,14,15]`). -/
structure Preamble where
  wfid : String
  xunit : String
  xinc : ℚ
  xzero : ℚ
  yunit : String
  ymult : ℚ
  yzero : ℚ
  yoffRaw : ℚ
  deriving DecidableEq

/-- Lines 119–128: strip the line terminator, split on `;`, and read fields
6, 8, 10, 11, 12, 13, 14, 15.  Any missing field (fewer than 16 fields) or
failed numeric parse is a crash of the script (`IndexError`/`ValueError`),
modelled as `none`. -/
def parsePreamble (line : String) : Option Preamble :=
  let f := splitOnChar ';' (line.dropRight 1).toList
  if h : 15 < f.length then
    match parseFloatChars (f.get ⟨8, by omega⟩), parseFloatChars (f.get ⟨10, by omega⟩),
        parseFloatChars (f.get ⟨12, by omega⟩), parseFloatChars (f.get ⟨13, by omega⟩),
        parseFloatChars (f.get ⟨14, by omega⟩) with
    | some xinc, some xzero, some ym, some yz, some yoffr =>
      some ⟨(f.get ⟨6, by omega⟩).asString, (f.get ⟨11, by omega⟩).asString, xinc, xzero,
        (f.get ⟨15, by omega⟩).asString, ym, yz, yoffr⟩
    | _, _, _, _, _ => none
  else none

/-- Line 128: `YOFF = float(ch_conf[14]) * YMULTiplier`, the y-position in
volts. -/
def YOFFof (p : Preamble) : ℚ := p.yoffRaw * p.ymult

/-! ## Curve decode (lines 131–145) -/

/-- `Option`-valued traversal of a list; `none` as soon as one element fails
(the Python list comprehension crashes on the first bad token). -/
def optMapM (f : α → Option β) : List α → Option (List β)
  | [] => some []
  | a :: t =>
    match f a, optMapM f t with
    | some b, some bs => some (b :: bs)
    | _, _ => none

/-- Line 132: strip the terminator, split the `CURVe?` response on commas and
parse every token as a float. -/
def decodeCurve (line : String) : Option (List ℚ) :=
  optMapM parseFloatChars (splitOnChar ',' (line.dropRight 1).toList)

/-- Line 132: `ch_data_Y = [float(d) * YMULTiplier for d in tokens]` — the
raw voltages, before the y-position offset is removed. -/
def ch_data_Y (ym : ℚ) (samples : List ℚ) : List ℚ :=
  samples.map (fun d => d * ym)

/-- Line 133: `ch_data_X = [round(float(x) * XINCRement + XZERO, 15) for x in
range(len(ch_data_Y))]`. -/
def ch_data_X (xinc xzero : ℚ) (n : ℕ) : List ℚ :=
  (List.range n).map (fun (x : ℕ) => round15 ((x : ℚ) * xinc + xzero))

/-- Line 145: `ch_data_Y = np.round(ch_data_Y - YOFF, 15)` — the persisted
calibrated voltages. -/
def calibrate (yoff : ℚ) (ys : List ℚ) : List ℚ :=
  ys.map (fun y => round15 (y - yoff))

/-! ## Smoothing (lines 15–16, 137–138) -/

/-- Line 15: `smooth_window = 11`. -/
def smooth_window : ℕ := 11

/-- Line 16: `smooth_order = 2`. -/
def smooth_order : ℕ := 2

/-- Failure conditions of the external `scipy.signal.savgol_filter`
collaborator, per its documentation: `polyorder` must be less than
`window_length`, and in the default `interp` mode `window_length` must not
exceed the length of the series.  Violating either raises inside the channel
loop (line 138). -/
def savgolErr (w o n : ℕ) : Bool := decide (w ≤ o) || decide (n < w)

/-- One channel's instrument responses (raw lines, terminator included). -/
structure ChannelResponses where
  souLine : String
  preambleLine : String
  curveLine : String

/-- The per-channel data the script persists to the CSV (lines 148–158):
the time column, the calibrated-voltage column, and, when smoothing is on,
the smoothed column. -/
structure ChannelRecord where
  time : List ℚ
  voltage : List ℚ
  smoothed : Option (List ℚ)
  deriving DecidableEq

/-- Lines 119–158 for one channel, parameterised by the external smoothing
collaborator `F` (`scipy.signal.savgol_filter` with the constant window and
order).  `none` models an uncaught exception (malformed preamble, malformed
curve token, or a `savgol_filter` error): the script has no handler, so the
whole program dies there.  Mirrors the source order: the smoothed series is
computed (line 138) from `ch_data_Y` before the offset removal of line 145. -/
def processChannel (F : List ℚ → List ℚ) (sm : Bool) (resp : ChannelResponses) :
    Option ChannelRecord :=
  match parsePreamble resp.preambleLine with
  | none => none
  | some p =>
    match decodeCurve resp.curveLine with
    | none => none
    | some samples =>
      let Y := ch_data_Y p.ymult samples
      let X := ch_data_X p.xinc p.xzero Y.length
      if sm then
        if savgolErr smooth_window smooth_order Y.length then none
        else some ⟨X, calibrate (YOFFof p) Y, some (F Y)⟩
      else some ⟨X, calibrate (YOFFof p) Y, none⟩

/-! ## Channel selection (lines 36–43) -/

/-- Lines 36–43: `ACQ_CH`.  When no `-c` argument was given (`None`), the
default specifier `'12'` is used; then, for `i` in `1..4` in ascending order,
`i` is selected iff the digit appears in the specifier
(`channels.find(str(i)) >= 0`). -/
def ACQ_CH (channels : Option String) : List ℕ :=
  let ch := match channels with
    | none => "12"
    | some s => s
  (((List.range 4).map (fun i => i + 1)).filter
    (fun i => ch.toList.contains (Char.ofNat (48 + i))))

example : ACQ_CH none = [1, 2] := by decide
example : ACQ_CH (some "134") = [1, 3, 4] := by decide

/-! ## The session (lines 46–162) -/

/-- Line 74: the expected identification literal. -/
def expectedIDN : String :=
  "TEKTRONIX,TDS 3034,0,CF:91.1CT FV:v3.29 TDS3GM:v1.00 TDS3FFT:v1.00 TDS3TRG:v1.00"

/-- The two commands written before the identification check (lines 71–72). -/
def preCmds : List String := ["*CLS", "*IDN?"]

/-- The configuration commands written after a successful identification
check (lines 82–101), in source order. -/
def configCmds : List String :=
  ["WFMPre:BIT_Nr 16", "WFMPre:BIT_Nr?", "DATa:WIDth?", "WFMPre:ENCdg ASC",
   "WFMPre:ENCdg?", "HORizontal?", "DATa:STARt 1", "DATa:STARt?",
   "DATa:STOP 10000", "DATa:STOP?"]

/-- The commands written while processing one channel (lines 109–131):
source select, source query, preamble query, and — only if the preamble
parse did not crash the script — the curve query. -/
def chanCmds (c : ℕ) (resp : ChannelResponses) : List String :=
  ["DATa:SOU CH" ++ toString c, "DATa:SOU?", "WFMPre?"] ++
    (if (parsePreamble resp.preambleLine).isSome then ["CURVe?"] else [])

/-- How the session ended. -/
inductive SessionExit where
  | portNotFound
  | openFailed
  | idnMismatch
  | channelCrash (c : ℕ)
  | done
  deriving DecidableEq

/-- The session's observable inputs: whether the requested port exists in
the enumeration (lines 53–62), whether `ser.open()` succeeds (lines 65–68),
the raw identification line, the `-c` specifier, the `-s` flag, and each
channel's responses. -/
structure SessionInput where
  portExists : Bool
  openOk : Bool
  idnLine : String
  channels : Option String
  smoothing : Bool
  perChannel : ℕ → ChannelResponses

/-- The session's observable outcome: how it exited, which channels got a
persisted record, every command written to the instrument, and whether
`ser.close()` (line 162) was ever executed. -/
structure SessionResult where
  exit : SessionExit
  records : List (ℕ × ChannelRecord)
  commands : List String
  closed : Bool

/-- The channel loop (lines 107–158).  Each successful channel appends its
record (its CSV file is written before the next channel starts); the first
uncaught exception kills the whole program, keeping the records already
written but processing no further channel. -/
def runChannels (F : List ℚ → List ℚ) (sm : Bool) (pc : ℕ → ChannelResponses) :
    List ℕ → List (ℕ × ChannelRecord) × List String × SessionExit
  | [] => ([], [], SessionExit.done)
  | c :: rest =>
    let resp := pc c
    match processChannel F sm resp with
    | none => ([], chanCmds c resp, SessionExit.channelCrash c)
    | some r =>
      let t := runChannels F sm pc rest
      ((c, r) :: t.1, chanCmds c resp ++ t.2.1, t.2.2)

/-- The whole session (lines 46–162), parameterised by the external smoother
`F`.  `sys.exit` paths (port missing, open failure, identification mismatch)
and uncaught channel exceptions all terminate without reaching the
`ser.close()` of line 162; only normal completion of the loop closes the
port. -/
def sessionRun (F : List ℚ → List ℚ) (inp : SessionInput) : SessionResult :=
  if inp.portExists then
    if inp.openOk then
      if inp.idnLine.dropRight 1 = expectedIDN then
        let t := runChannels F inp.smoothing inp.perChannel (ACQ_CH inp.channels)
        match t.2.2 with
        | SessionExit.done =>
          ⟨SessionExit.done, t.1, preCmds ++ configCmds ++ t.2.1, true⟩
        | e => ⟨e, t.1, preCmds ++ configCmds ++ t.2.1, false⟩
      else ⟨SessionExit.idnMismatch, [], preCmds, false⟩
    else ⟨SessionExit.openFailed, [], [], false⟩
  else ⟨SessionExit.portNotFound, [], [], false⟩

/-! ## Spec-modelled smoother

The script delegates smoothing to `scipy.signal.savgol_filter`, whose code is
not part of this repository. -/

/-- Modelled from the spec: §4.6 describes the missing `savgol_filter` code
as a "local-window least-squares fit (Savitzky–Golay-style)".  This is the
degree-2 least-squares fit over a window: value at abscissa `t` of the
quadratic minimising the squared error over the points `(j, ys[j])`, computed
through the normal equations, solved by Cramer's rule. -/
def lsqQuadEval (ys : List ℚ) (t : ℚ) : ℚ :=
  let pts := ys.enum.map (fun p => ((p.1 : ℚ), p.2))
  let s0 := (pts.map (fun _ => (1 : ℚ))).sum
  let s1 := (pts.map (fun p => p.1)).sum
  let s2 := (pts.map (fun p => p.1 ^ 2)).sum
  let s3 := (pts.map (fun p => p.1 ^ 3)).sum
  let s4 := (pts.map (fun p => p.1 ^ 4)).sum
  let t0 := (pts.map (fun p => p.2)).sum
  let t1 := (pts.map (fun p => p.1 * p.2)).sum
  let t2 := (pts.map (fun p => p.1 ^ 2 * p.2)).sum
  let det3 := fun (a b c d e f g h i : ℚ) =>
    a * (e * i - f * h) - b * (d * i - f * g) + c * (d * h - e * g)
  let dd := det3 s0 s1 s2 s1 s2 s3 s2 s3 s4
  let da := det3 t0 s1 s2 t1 s2 s3 t2 s3 s4
  let db := det3 s0 t0 s2 s1 t1 s3 s2 t2 s4
  let dc := det3 s0 s1 t0 s1 s2 t1 s2 s3 t2
  (da + db * t + dc * t ^ 2) / dd

/-- Modelled from the spec: the Savitzky–Golay-style smoother of §4.6 with
quadratic order, window `w`, boundary windows clamped to the series ends
(the interpolation edge convention): each output sample is the least-squares
quadratic over the `w` samples around it, evaluated at its own abscissa. -/
def sgSmoothQuad (w : ℕ) (ys : List ℚ) : List ℚ :=
  let n := ys.length
  let h := w / 2
  (List.range n).map (fun i =>
    let s := if i ≤ h then 0 else min (i - h) (n - w)
    lsqQuadEval ((ys.drop s).take w) ((i : ℚ) - (s : ℚ)))

/-! ## Concrete instrument inputs used by witnesses and counterexamples -/

/-- The end-to-end scenario of the spec (§8): `x_increment = 1e-6`,
`x_zero = 0`, `y_multiplier = 0.04`, raw y-position field `512`, curve
`"100,200,300"`. -/
def c4resp : ChannelResponses :=
  ⟨"CH1\n", ";;;;;;WF;;1e-6;;0;s;0.04;0;512;V\n", "100,200,300\n"⟩

/-- The preamble `c4resp` parses to. -/
def c4pre : Preamble := ⟨"WF", "s", 1 / 1000000, 0, "V", 1 / 25, 0, 512⟩

/-- The record the pipeline produces from `c4resp` without smoothing. -/
def c4record : ChannelRecord :=
  ⟨[0, 1 / 1000000, 1 / 500000], [-(412 / 25), -(312 / 25), -(212 / 25)], none⟩

/-- A channel input exposing the rounding order of the calibration:
`y_multiplier = 1e-16`, raw y-position field `8`, one sample `24`. -/
def c1resp : ChannelResponses :=
  ⟨"CH1\n", ";;;;;;WF;;0;;0;s;1e-16;0;8;V\n", "24\n"⟩

/-- An identification line matching the expected literal after the trailing
terminator is stripped. -/
def goodIdnLine : String := expectedIDN ++ "\n"

/-- Channel responses with a malformed preamble on channel 2 only. -/
def c6pc : ℕ → ChannelResponses := fun n =>
  if n = 2 then ⟨"CH2\n", "TDS 3034\n", "1\n"⟩ else c4resp

/-! ## Helper lemmas -/

theorem optMapM_length {α β : Type} (f : α → Option β) (xs : List α) :
    ∀ {ys : List β}, optMapM f xs = some ys → ys.length = xs.length := by
  induction xs with
  | nil =>
    intro ys h
    simp only [optMapM, Option.some.injEq] at h
    simp [← h]
  | cons a t ih =>
    intro ys h
    simp only [optMapM] at h
    cases hfa : f a <;> rw [hfa] at h
    · exact absurd h (by simp)
    cases hr : optMapM f t <;> rw [hr] at h
    · exact absurd h (by simp)
    simp only [Option.some.injEq] at h
    subst h
    simp [ih hr]

/-- Unfolding of a successful channel run: the record's three columns in
terms of the parsed preamble and decoded samples. -/
theorem processChannel_some {F : List ℚ → List ℚ} {sm : Bool}
    {resp : ChannelResponses} {p : Preamble} {samples : List ℚ}
    {r : ChannelRecord}
    (hp : parsePreamble resp.preambleLine = some p)
    (hc : decodeCurve resp.curveLine = some samples)
    (hr : processChannel F sm resp = some r) :
    r = ⟨ch_data_X p.xinc p.xzero (ch_data_Y p.ymult samples).length,
         calibrate (YOFFof p) (ch_data_Y p.ymult samples),
         if sm then some (F (ch_data_Y p.ymult samples)) else none⟩ := by
  unfold processChannel at hr
  rw [hp, hc] at hr
  cases sm with
  | false =>
    simp only [Bool.false_eq_true, if_false, Option.some.injEq] at hr
    simp [← hr]
  | true =>
    simp only [if_true] at hr
    cases hse : savgolErr smooth_window smooth_order
        (ch_data_Y p.ymult samples).length <;> rw [hse] at hr
    · simp only [Bool.false_eq_true, if_false, Option.some.injEq] at hr
      simp [← hr]
    · exact absurd hr (by simp)

/-! ## Claims -/

/-- C1, as stated, is false: line 132 does not round the raw-voltage product
before line 145 subtracts the position offset.  With `y_multiplier = 1e-16`,
raw position field `8` (so `y_position = 8e-16`) and sample `24`, the script
persists `round(24e-16 - 8e-16, 15) = 2e-15`, while the claimed
`round(round(24 * 1e-16, 15) - 8e-16, 15)` is `1e-15`. -/
theorem c1_counterexample :
    (processChannel id false c1resp).map ChannelRecord.voltage =
      some [2 / 10 ^ 15] ∧
    round15 (round15 ((24 : ℚ) * (1 / 10 ^ 16)) - 8 * (1 / 10 ^ 16)) =
      1 / 10 ^ 15 ∧
    ((2 : ℚ) / 10 ^ 15) ≠ 1 / 10 ^ 15 :=
  ⟨by decide, by decide, by decide⟩

/-- C1 (amended): for every valid preamble and decoded sample the persisted
calibrated voltage equals `round(sample[i] * y_multiplier - y_position, 15)`
where `y_position` is the raw position field times `y_multiplier`; the
raw-voltage product is not itself rounded before the subtraction. -/
theorem c1_calibration (F : List ℚ → List ℚ) (sm : Bool)
    (resp : ChannelResponses) (p : Preamble) (samples : List ℚ)
    (r : ChannelRecord) (i : ℕ)
    (hp : parsePreamble resp.preambleLine = some p)
    (hc : decodeCurve resp.curveLine = some samples)
    (hr : processChannel F sm resp = some r)
    (hi : i < samples.length) :
    r.voltage[i]? =
      some (round15 (samples.get ⟨i, hi⟩ * p.ymult - p.yoffRaw * p.ymult)) := by
  rw [processChannel_some hp hc hr]
  simp [calibrate, ch_data_Y, YOFFof, List.getElem?_map,
    List.getElem?_eq_getElem hi]

/-- Witness for `c1_calibration` at the concrete end-to-end input. -/
theorem c1_calibration_witness :
    c4record.voltage[0]? =
      some (round15 ((100 : ℚ) * (1 / 25) - 512 * (1 / 25))) :=
  c1_calibration id false c4resp c4pre [100, 200, 300] c4record 0
    (by decide) (by decide) (by decide) (by decide)

/-- C2: for every valid preamble and every index of the decoded curve, the
emitted time value is exactly `round(i * x_increment + x_zero, 15)`
(line 133). -/
theorem c2_time (F : List ℚ → List ℚ) (sm : Bool)
    (resp : ChannelResponses) (p : Preamble) (samples : List ℚ)
    (r : ChannelRecord) (i : ℕ)
    (hp : parsePreamble resp.preambleLine = some p)
    (hc : decodeCurve resp.curveLine = some samples)
    (hr : processChannel F sm resp = some r)
    (hi : i < r.time.length) :
    r.time[i]? = some (round15 ((i : ℚ) * p.xinc + p.xzero)) := by
  rw [processChannel_some hp hc hr]
  rw [processChannel_some hp hc hr] at hi
  simp only [ch_data_X, List.length_map, List.length_range] at hi ⊢
  rw [List.getElem?_map, List.getElem?_range hi]
  rfl

/-- Witness for `c2_time` at the concrete end-to-end input. -/
theorem c2_time_witness :
    c4record.time[1]? = some (round15 ((1 : ℚ) * (1 / 1000000) + 0)) :=
  c2_time id false c4resp c4pre [100, 200, 300] c4record 1
    (by decide) (by decide) (by decide) (by decide)

/-- C3: when the curve decodes, the time, raw-voltage and calibrated-voltage
sequences all have the number of comma-separated tokens of the curve
response as their common length. -/
theorem c3_lengths (F : List ℚ → List ℚ) (sm : Bool)
    (resp : ChannelResponses) (p : Preamble) (samples : List ℚ)
    (r : ChannelRecord)
    (hp : parsePreamble resp.preambleLine = some p)
    (hc : decodeCurve resp.curveLine = some samples)
    (hr : processChannel F sm resp = some r) :
    r.time.length = (splitOnChar ',' (resp.curveLine.dropRight 1).toList).length ∧
    (ch_data_Y p.ymult samples).length =
      (splitOnChar ',' (resp.curveLine.dropRight 1).toList).length ∧
    r.voltage.length = (splitOnChar ',' (resp.curveLine.dropRight 1).toList).length := by
  have hlen : samples.length =
      (splitOnChar ',' (resp.curveLine.dropRight 1).toList).length :=
    optMapM_length parseFloatChars _ hc
  rw [processChannel_some hp hc hr]
  simp [ch_data_X, ch_data_Y, calibrate, hlen]

/-- Witness for `c3_lengths` at the concrete end-to-end input. -/
theorem c3_lengths_witness :
    c4record.time.length =
      (splitOnChar ',' (c4resp.curveLine.dropRight 1).toList).length ∧
    (ch_data_Y c4pre.ymult [100, 200, 300]).length =
      (splitOnChar ',' (c4resp.curveLine.dropRight 1).toList).length ∧
    c4record.voltage.length =
      (splitOnChar ',' (c4resp.curveLine.dropRight 1).toList).length :=
  c3_lengths id false c4resp c4pre [100, 200, 300] c4record
    (by decide) (by decide) (by decide)

/-- C4: the end-to-end scenario.  With `x_increment = 1e-6`, `x_zero = 0`,
`y_multiplier = 0.04`, raw y-position field `512` (`y_position = 20.48 =
512/25`) and curve `"100,200,300"`, the pipeline emits exactly
`time = [0, 1e-6, 2e-6]`, `rawVoltage = [4, 8, 12]` and
`calibratedVoltage = [-16.48, -12.48, -8.48]`. -/
theorem c4_end_to_end :
    (parsePreamble c4resp.preambleLine).map YOFFof = some (512 / 25) ∧
    (decodeCurve c4resp.curveLine).map (ch_data_Y (1 / 25)) =
      some [4, 8, 12] ∧
    processChannel id false c4resp = some c4record ∧
    c4record = ⟨[0, 1 / 1000000, 1 / 500000],
      [-(412 / 25), -(312 / 25), -(212 / 25)], none⟩ :=
  ⟨by decide, by decide, by decide, by decide⟩

/-- C5, as stated, is false for the empty specifier: only an *absent* `-c`
argument defaults to `'12'` (line 38); an empty (or all-garbage) specifier
string selects no channel at all. -/
theorem c5_counterexample :
    ACQ_CH (some "") = [] ∧ ACQ_CH (some "") ≠ [1, 2] :=
  ⟨by decide, by decide⟩

/-- C5 (amended): `"134"` selects `[1, 3, 4]` in ascending order, `"24"`
selects `[2, 4]`, an absent specifier defaults to `[1, 2]`, and a specifier
containing no digit `1`–`4` (including the empty string) selects nothing. -/
theorem c5_selection (s : String)
    (hs : ∀ c ∈ s.toList, c ≠ '1' ∧ c ≠ '2' ∧ c ≠ '3' ∧ c ≠ '4') :
    ACQ_CH none = [1, 2] ∧ ACQ_CH (some "134") = [1, 3, 4] ∧
    ACQ_CH (some "24") = [2, 4] ∧ ACQ_CH (some s) = [] := by
  refine ⟨by decide, by decide, by decide, ?_⟩
  apply List.filter_eq_nil_iff.mpr
  intro a ha h
  have hmem : Char.ofNat (48 + a) ∈ s.toList := by
    simpa [List.contains_iff_exists_mem_beq, beq_iff_eq] using h
  fin_cases ha
  · exact (hs _ hmem).1 (by decide)
  · exact (hs _ hmem).2.1 (by decide)
  · exact (hs _ hmem).2.2.1 (by decide)
  · exact (hs _ hmem).2.2.2 (by decide)

/-- Witness for `c5_selection` on a garbage specifier. -/
theorem c5_selection_witness :
    ACQ_CH none = [1, 2] ∧ ACQ_CH (some "134") = [1, 3, 4] ∧
    ACQ_CH (some "24") = [2, 4] ∧ ACQ_CH (some "xq0") = [] :=
  c5_selection "xq0" (by decide)

/-- A successful channel run implies the preamble parsed. -/
theorem processChannel_parses {F : List ℚ → List ℚ} {sm : Bool}
    {resp : ChannelResponses} {r : ChannelRecord}
    (hr : processChannel F sm resp = some r) :
    ∃ p, parsePreamble resp.preambleLine = some p := by
  unfold processChannel at hr
  cases hp : parsePreamble resp.preambleLine <;> rw [hp] at hr
  · exact absurd hr (by simp)
  · exact ⟨_, rfl⟩

/-- The session input of the four-channel scenario of C6. -/
def c6input (pc : ℕ → ChannelResponses) : SessionInput :=
  ⟨true, true, goodIdnLine, some "1234", false, pc⟩

/-- C6, as stated, is false: the script has no exception handling, so the
`IndexError` raised on the short preamble of channel 2 kills the whole
program.  Channel 1 (already written to its CSV) survives, but channels 3
and 4 are never processed. -/
theorem c6_counterexample :
    (sessionRun id (c6input c6pc)).records.map Prod.fst = [1] ∧
    3 ∉ (sessionRun id (c6input c6pc)).records.map Prod.fst ∧
    4 ∉ (sessionRun id (c6input c6pc)).records.map Prod.fst ∧
    (sessionRun id (c6input c6pc)).exit = SessionExit.channelCrash 2 :=
  ⟨by decide, by decide, by decide, by decide⟩

/-- C6 (amended): a malformed preamble on channel 2 of the selection
`{1,2,3,4}` aborts the whole session at channel 2: the session exits with a
crash on channel 2, only channel 1's record is persisted (no partial record
for channel 2), and channel 3 is never even selected as a data source. -/
theorem c6_channel_isolation (F : List ℚ → List ℚ)
    (pc : ℕ → ChannelResponses)
    (h1 : (processChannel F false (pc 1)).isSome = true)
    (h2 : parsePreamble (pc 2).preambleLine = none) :
    (sessionRun F (c6input pc)).exit = SessionExit.channelCrash 2 ∧
    (sessionRun F (c6input pc)).records.map Prod.fst = [1] ∧
    "DATa:SOU CH" ++ toString 3 ∉ (sessionRun F (c6input pc)).commands := by
  obtain ⟨r1, hr1⟩ := Option.isSome_iff_exists.mp h1
  obtain ⟨p1, hp1⟩ := processChannel_parses hr1
  have hpc2 : processChannel F false (pc 2) = none := by
    unfold processChannel
    rw [h2]
  have hacq : ACQ_CH (some "1234") = [1, 2, 3, 4] := by decide
  have hrun : runChannels F false pc [1, 2, 3, 4] =
      ([(1, r1)], chanCmds 1 (pc 1) ++ chanCmds 2 (pc 2),
        SessionExit.channelCrash 2) := by
    simp [runChannels, hr1, hpc2]
  unfold sessionRun
  simp only [c6input, hacq, hrun]
  have hgood : goodIdnLine.dropRight 1 = expectedIDN := by decide
  rw [if_pos trivial, if_pos trivial, if_pos hgood]
  refine ⟨rfl, by simp, ?_⟩
  simp only [chanCmds, hp1, h2, Option.isSome_some, Option.isSome_none,
    if_true, Bool.false_eq_true, if_false, preCmds, configCmds]
  decide

/-- Witness for `c6_channel_isolation` at the concrete scenario. -/
theorem c6_channel_isolation_witness :
    (sessionRun id (c6input c6pc)).exit = SessionExit.channelCrash 2 ∧
    (sessionRun id (c6input c6pc)).records.map Prod.fst = [1] ∧
    "DATa:SOU CH" ++ toString 3 ∉ (sessionRun id (c6input c6pc)).commands :=
  c6_channel_isolation id c6pc (by decide) (by decide)

/-- C7: with an existing port and an open connection, the exact expected
identification literal (terminator stripped, lines 73–74) lets the session
proceed to configuration (the first configuration command is written), while
any deviation — in particular any single-character deviation — exits with an
identification mismatch before any configuration command is written
(line 76). -/
theorem c7_idn_gate (F : List ℚ → List ℚ) (inp : SessionInput)
    (hport : inp.portExists = true) (hopen : inp.openOk = true) :
    (inp.idnLine.dropRight 1 = expectedIDN →
      "WFMPre:BIT_Nr 16" ∈ (sessionRun F inp).commands) ∧
    (inp.idnLine.dropRight 1 ≠ expectedIDN →
      (sessionRun F inp).exit = SessionExit.idnMismatch ∧
      ∀ c ∈ configCmds, c ∉ (sessionRun F inp).commands) := by
  unfold sessionRun
  rw [hport, hopen]
  simp only [if_true]
  by_cases hid : inp.idnLine.dropRight 1 = expectedIDN
  · rw [if_pos hid]
    refine ⟨fun _ => ?_, fun hne => absurd hid hne⟩
    have hm : "WFMPre:BIT_Nr 16" ∈ preCmds ++ configCmds ++
        (runChannels F inp.smoothing inp.perChannel (ACQ_CH inp.channels)).2.1 := by
      refine List.mem_append.mpr (Or.inl (List.mem_append.mpr (Or.inr ?_)))
      decide
    cases (runChannels F inp.smoothing inp.perChannel (ACQ_CH inp.channels)).2.2 <;>
      exact hm
  · rw [if_neg hid]
    exact ⟨fun h => absurd h hid, fun _ => ⟨rfl, by decide⟩⟩

/-- Witness for `c7_idn_gate` at the concrete matching-identification
session. -/
theorem c7_idn_gate_witness :
    ((c6input c6pc).idnLine.dropRight 1 = expectedIDN →
      "WFMPre:BIT_Nr 16" ∈ (sessionRun id (c6input c6pc)).commands) ∧
    ((c6input c6pc).idnLine.dropRight 1 ≠ expectedIDN →
      (sessionRun id (c6input c6pc)).exit = SessionExit.idnMismatch ∧
      ∀ c ∈ configCmds, c ∉ (sessionRun id (c6input c6pc)).commands) :=
  c7_idn_gate id (c6input c6pc) (by decide) (by decide)

/-- The session of C8's counterexample: the port exists, the connection
opens, but the identification line is wrong. -/
def c8input : SessionInput :=
  ⟨true, true, "WRONG\n", some "1", false, fun _ => c4resp⟩

/-- C8, as stated, is false: on an identification mismatch the script calls
`sys.exit()` (line 76) with the port open, never reaching the `ser.close()`
of line 162. -/
theorem c8_counterexample :
    (sessionRun id c8input).exit = SessionExit.idnMismatch ∧
    (sessionRun id c8input).closed = false :=
  ⟨by decide, by decide⟩

/-- C8 (amended): the serial connection is closed exactly on normal
completion of the channel loop; every fatal exit (`sys.exit` on a missing
port, failed open, identification mismatch, or an uncaught channel
exception) terminates without executing `ser.close()`. -/
theorem c8_close_only_on_done (F : List ℚ → List ℚ) (inp : SessionInput) :
    (sessionRun F inp).closed = true ↔
      (sessionRun F inp).exit = SessionExit.done := by
  unfold sessionRun
  cases hpe : inp.portExists
  · simp
  cases hoo : inp.openOk
  · simp
  simp only [if_true]
  by_cases hid : inp.idnLine.dropRight 1 = expectedIDN
  · rw [if_pos hid]
    cases (runChannels F inp.smoothing inp.perChannel (ACQ_CH inp.channels)).2.2 <;>
      simp
  · rw [if_neg hid]
    simp

/-- The session input of the smoothing scenarios: one selected channel,
smoothing enabled. -/
def c9input (pc : ℕ → ChannelResponses) : SessionInput :=
  ⟨true, true, goodIdnLine, some "1", true, pc⟩

/-- C9, as stated, is false: the script never validates the smoothing
parameters before the channel loop.  With smoothing enabled and a curve of
3 samples (shorter than the window of 11), the channel's preamble and curve
queries are issued — channel work begins — and only then does the
`savgol_filter` call blow up, crashing the program inside channel 1. -/
theorem c9_counterexample :
    (decodeCurve c4resp.curveLine).map List.length = some 3 ∧
    3 < smooth_window ∧
    (sessionRun id (c9input (fun _ => c4resp))).exit =
      SessionExit.channelCrash 1 ∧
    "WFMPre?" ∈ (sessionRun id (c9input (fun _ => c4resp))).commands ∧
    "CURVe?" ∈ (sessionRun id (c9input (fun _ => c4resp))).commands :=
  ⟨by decide, by decide, by decide, by decide, by decide⟩

/-- C9 (amended): the script performs no defensive precondition check at
all.  Its constants already satisfy oddness and `window > order`, and when
the decoded series is shorter than the window the failure is the external
filter's own error, raised inside the channel loop after that channel's
preamble and curve queries, killing the session with no record for the
channel. -/
theorem c9_no_precheck (F : List ℚ → List ℚ) (pc : ℕ → ChannelResponses)
    (p : Preamble) (samples : List ℚ)
    (hp : parsePreamble (pc 1).preambleLine = some p)
    (hc : decodeCurve (pc 1).curveLine = some samples)
    (hn : samples.length < smooth_window) :
    (sessionRun F (c9input pc)).exit = SessionExit.channelCrash 1 ∧
    "CURVe?" ∈ (sessionRun F (c9input pc)).commands ∧
    (sessionRun F (c9input pc)).records = [] := by
  have hpc : processChannel F true (pc 1) = none := by
    unfold processChannel
    rw [hp, hc]
    have hse : savgolErr smooth_window smooth_order
        (ch_data_Y p.ymult samples).length = true := by
      simp only [savgolErr, ch_data_Y, List.length_map, Bool.or_eq_true,
        decide_eq_true_eq]
      exact Or.inr hn
    simp [hse]
  have hacq : ACQ_CH (some "1") = [1] := by decide
  have hrun : runChannels F true pc [1] =
      ([], chanCmds 1 (pc 1), SessionExit.channelCrash 1) := by
    simp [runChannels, hpc]
  unfold sessionRun
  simp only [c9input, hacq, hrun]
  have hgood : goodIdnLine.dropRight 1 = expectedIDN := by decide
  rw [if_pos trivial, if_pos trivial, if_pos hgood]
  refine ⟨rfl, ?_, rfl⟩
  simp only [chanCmds, hp, Option.isSome_some, if_true]
  refine List.mem_append.mpr (Or.inr (List.mem_append.mpr (Or.inr ?_)))
  decide

/-- Witness for `c9_no_precheck` at the concrete 3-sample curve. -/
theorem c9_no_precheck_witness :
    (sessionRun id (c9input (fun _ => c4resp))).exit =
      SessionExit.channelCrash 1 ∧
    "CURVe?" ∈ (sessionRun id (c9input (fun _ => c4resp))).commands ∧
    (sessionRun id (c9input (fun _ => c4resp))).records = [] :=
  c9_no_precheck id (fun _ => c4resp) c4pre [100, 200, 300]
    (by decide) (by decide) (by decide)

/-- The smoothing scenario input: `y_multiplier = 1`, raw position field `0`
(so `y_position = 0`), and an 11-sample curve with a single spike. -/
def c10resp : ChannelResponses :=
  ⟨"CH1\n", ";;;;;;WF;;1;;0;s;1;0;0;V\n", "0,0,0,0,0,429,0,0,0,0,0\n"⟩

/-- The preamble `c10resp` parses to. -/
def c10pre : Preamble := ⟨"WF", "s", 1, 0, "V", 1, 0, 0⟩

/-- The record the pipeline produces from `c10resp` with smoothing enabled
and the identity collaborator. -/
def c10record : ChannelRecord :=
  ⟨[0, 1, 2, 3, 4, 5, 6, 7, 8, 9, 10],
   [0, 0, 0, 0, 0, 429, 0, 0, 0, 0, 0],
   some [0, 0, 0, 0, 0, 429, 0, 0, 0, 0, 0]⟩

/-- C10's middle assertion, as stated, is false: the persisted smoothed
value is not the calibrated voltage shifted by `y_position`, because
smoothing changes the values.  With `y_multiplier = 1`, `y_position = 0` and
the spike curve, the persisted smoothed value at index 5 is `89` (the
least-squares quadratic at the spike) while `calibratedVoltage[5] +
y_position = 429`. -/
theorem c10_counterexample :
    ((processChannel (sgSmoothQuad smooth_window) true c10resp).bind
        ChannelRecord.smoothed).bind (fun l => l[5]?) = some 89 ∧
    ((processChannel (sgSmoothQuad smooth_window) true c10resp).map
        ChannelRecord.voltage).bind (fun l => l[5]?) = some 429 ∧
    (parsePreamble c10resp.preambleLine).map YOFFof = some 0 ∧
    (89 : ℚ) ≠ 429 + 0 :=
  ⟨by decide, by decide, by decide, by decide⟩

/-- C10 (amended): the persisted smoothed series is computed (line 138) from
the pre-calibration voltages — the raw samples times `y_multiplier`, before
line 145 subtracts `y_position` — and is persisted with no offset correction
of its own; its values need not equal `calibratedVoltage[i] + y_position`
since the filter alters them. -/
theorem c10_smoothed_uncorrected (F : List ℚ → List ℚ)
    (resp : ChannelResponses) (p : Preamble) (samples : List ℚ)
    (r : ChannelRecord)
    (hp : parsePreamble resp.preambleLine = some p)
    (hc : decodeCurve resp.curveLine = some samples)
    (hr : processChannel F true resp = some r) :
    r.smoothed = some (F (ch_data_Y p.ymult samples)) ∧
    r.voltage = calibrate (YOFFof p) (ch_data_Y p.ymult samples) := by
  rw [processChannel_some hp hc hr]
  exact ⟨rfl, rfl⟩

/-- Witness for `c10_smoothed_uncorrected` with the identity collaborator at
the spike curve. -/
theorem c10_smoothed_uncorrected_witness :
    c10record.smoothed =
      some (id (ch_data_Y c10pre.ymult
        [0, 0, 0, 0, 0, 429, 0, 0, 0, 0, 0])) ∧
    c10record.voltage =
      calibrate (YOFFof c10pre) (ch_data_Y c10pre.ymult
        [0, 0, 0, 0, 0, 429, 0, 0, 0, 0, 0]) :=
  c10_smoothed_uncorrected id c10resp c10pre
    [0, 0, 0, 0, 0, 429, 0, 0, 0, 0, 0] c10record
    (by decide) (by decide) (by decide)
